import Mathlib

/-!
Shallow embedding of `src/battery_stats.cpp` (a battery statistics monitor).

Modelling conventions:
* Wall-clock and monotonic timestamps are integers counting milliseconds
  (the C++ code converts every time difference it uses to
  `std::chrono::milliseconds` before doing arithmetic with it).
* Energies (`double` in the source) are rationals; the binary rounding of
  IEEE doubles is abstracted away, and the fixed-point decimal rendering of
  `std::format` (`:.2f`, `:+.2f`, `:.1f`) is modelled by rounding the exact
  rational to the requested number of decimal digits.
* The leading zoned wall-clock timestamp that `BatteryMonitor::print` writes
  before everything else depends on the system time zone and is not part of
  any claim; `printMsg` below produces the remainder of the output line,
  exactly as the source builds it.
* Each mutating entry point returns the new monitor state together with the
  list of output lines it emitted.
-/

inductive PowerState
  | Awake
  | Suspended
  | Hibernating
deriving DecidableEq, Repr

inductive BatteryState
  | Charging
  | Discharging
  | Idle
deriving DecidableEq, Repr

/-- The `Stat` bit-flag enum of the source (`energy = 1`, `rate = 2`,
`averageRate = 4`, `relEnergy = 8`). -/
inductive Stat
  | energy
  | rate
  | averageRate
  | relEnergy
deriving DecidableEq, Repr

def Stat.toNat : Stat → ℕ
  | .energy => 1
  | .rate => 2
  | .averageRate => 4
  | .relEnergy => 8

/-- `StatFlags` wraps a `uint32_t` bit set; only the four low bits above are
ever used, so plain `ℕ` with bitwise operations is an exact model. -/
structure StatFlags where
  value : ℕ
deriving DecidableEq, Repr

/-- The C++ `operator&(StatFlags, Stat)`: tests a flag bit. -/
def StatFlags.has (f : StatFlags) (s : Stat) : Bool :=
  Nat.land f.value s.toNat != 0

/-- The C++ `operator|(StatFlags, Stat)`. -/
def StatFlags.orStat (f : StatFlags) (s : Stat) : StatFlags :=
  ⟨Nat.lor f.value s.toNat⟩

/-- The C++ `operator|(Stat, Stat)`. -/
def Stat.orStat (a b : Stat) : StatFlags :=
  ⟨Nat.lor a.toNat b.toNat⟩

/-- Truncating division (rounds toward zero), the semantics of
`std::chrono::duration_cast` between integral-representation durations. -/
def tquot (a b : ℤ) : ℤ :=
  Int.tdiv a b

/-- The free function `formatRelTime` of the source, taking the duration in
milliseconds.  It truncates to whole seconds, returns `""` for a zero result,
and otherwise appends an `"<N>h"`, `"<N>m"`, `"<N>s"` token for each component
whose count is strictly positive. -/
def formatRelTime (ms : ℤ) : String :=
  let relTime := tquot ms 1000
  if relTime = 0 then ""
  else
    let hours := tquot relTime 3600
    let output := if hours > 0 then toString hours ++ "h" else ""
    let mins := tquot relTime 60 - hours * 60
    let output := output ++ (if mins > 0 then toString mins ++ "m" else "")
    let secs := relTime - hours * 3600 - mins * 60
    output ++ (if secs > 0 then toString secs ++ "s" else "")

/-- Modelled from the spec: the Duration Formatter as the claim describes it,
emitting each unit token whenever its count is NONZERO (the source instead
requires the count to be strictly positive).  Used only to compare the claim
with `formatRelTime`. -/
def formatRelTimeSpec (ms : ℤ) : String :=
  let relTime := tquot ms 1000
  if relTime = 0 then ""
  else
    let hours := tquot relTime 3600
    let output := if hours ≠ 0 then toString hours ++ "h" else ""
    let mins := tquot relTime 60 - hours * 60
    let output := output ++ (if mins ≠ 0 then toString mins ++ "m" else "")
    let secs := relTime - hours * 3600 - mins * 60
    output ++ (if secs ≠ 0 then toString secs ++ "s" else "")

/-- Left-pads a digit string with zeros up to the requested width. -/
def padZeros (s : String) (width : ℕ) : String :=
  (List.replicate (width - s.length) '0').asString ++ s

/-- Fixed-point decimal rendering of a rational with `prec` digits after the
point, as `std::format` renders a `double` with `{:.<prec>f}` (rounding to
nearest). -/
def formatFixed (prec : ℕ) (q : ℚ) : String :=
  let scaled : ℤ := round (q * (10 : ℚ) ^ prec)
  let sign := if scaled < 0 then "-" else ""
  let a := scaled.natAbs
  let ip := a / 10 ^ prec
  let fp := a % 10 ^ prec
  sign ++ toString ip ++ "." ++ padZeros (toString fp) prec

/-- Rendering with an explicit leading sign, as `{:+.2f}` does. -/
def formatSignedFixed (prec : ℕ) (q : ℚ) : String :=
  if round (q * (10 : ℚ) ^ prec) < 0 then formatFixed prec q
  else "+" ++ formatFixed prec q

/-- A `Reading` of the source: wall-clock time (ms), monotonic time (ms),
energy (Wh). -/
structure Reading where
  time : ℤ
  relTime : ℤ
  energy : ℚ
deriving DecidableEq, Repr

/-- The mutable state of the `BatteryMonitor` class. -/
structure BatteryMonitor where
  energyEmpty : Option ℚ
  energyFull : Option ℚ
  firstReading : Option Reading
  readings : List Reading
  printSuspendStats : Bool
  enterSuspendTime : Option ℤ
  totalSuspendEnergy : ℚ
deriving DecidableEq, Repr

/-- The default-constructed monitor. -/
def BatteryMonitor.init : BatteryMonitor :=
  ⟨none, none, none, [], false, none, 0⟩

def BatteryMonitor.isSuspended (m : BatteryMonitor) : Bool :=
  m.enterSuspendTime.isSome

/-- `BatteryMonitor::printRate`: renders the instantaneous rate in watts and,
when both capacity limits are known, a percent-per-hour figure that switches
to percent-per-day below an absolute value of 1.0. -/
def printRate (energyEmpty energyFull : Option ℚ) (energyDiff : ℚ)
    (timeDiffMs : ℤ) : String :=
  let msPerHour : ℚ := 1000 * 60 * 60
  let hours : ℚ := (timeDiffMs : ℚ) / msPerHour
  let watts : ℚ := energyDiff / hours
  let base := formatFixed 2 watts ++ " W"
  match energyEmpty, energyFull with
  | some e, some f =>
    let percentPerHour := (100 * energyDiff / (f - e)) / hours
    if 1 ≤ |percentPerHour| then
      base ++ " (" ++ formatFixed 1 percentPerHour ++ "%/hr)"
    else
      let percentPerDay := percentPerHour * 24
      base ++ " (" ++ formatFixed 1 percentPerDay ++ "%/day)"
  | _, _ => base

/-- `BatteryMonitor::print`, minus the leading zoned timestamp (see the file
header).  `relNow` is the monotonic clock sampled inside `print`. -/
def printMsg (m : BatteryMonitor) (relNow : ℤ) (msg : String)
    (flags : StatFlags) : String :=
  let runPart :=
    match m.firstReading with
    | some fr =>
      let s := formatRelTime (relNow - fr.relTime)
      if s = "" then "" else " (+" ++ s ++ ")"
    | none => ""
  let msgPart := if msg = "" then "" else " - " ++ msg
  match m.readings.getLast? with
  | none => runPart ++ msgPart
  | some curReading =>
    let prevReading? :=
      if m.readings.length > 1 then m.readings.dropLast.getLast? else none
    let energyPart :=
      if flags.has .energy then
        " - " ++ formatFixed 2 curReading.energy ++ " Wh" ++
        (match m.energyEmpty, m.energyFull with
         | some e, some f =>
           " (" ++ formatFixed 2 (100 * (curReading.energy - e) / (f - e)) ++
             "%)"
         | _, _ => "")
      else ""
    let relPart :=
      match prevReading? with
      | some prev =>
        if flags.has .relEnergy then
          let energyDiff := curReading.energy - prev.energy
          " - " ++ formatSignedFixed 2 energyDiff ++ " Wh" ++
          (match m.energyEmpty, m.energyFull with
           | some e, some f =>
             " (" ++ formatFixed 2 (100 * energyDiff / (f - e)) ++ "%)"
           | _, _ => "")
        else ""
      | none => ""
    let ratePart :=
      match prevReading? with
      | some prev =>
        if flags.has .rate then
          " / Rate " ++ printRate m.energyEmpty m.energyFull
            (curReading.energy - prev.energy) (curReading.time - prev.time)
        else ""
      | none => ""
    let avgPart :=
      if flags.has .averageRate then
        match m.firstReading with
        | some fr =>
          if m.readings.length > 1 then
            " / Avg " ++ printRate m.energyEmpty m.energyFull
              (curReading.energy - fr.energy - m.totalSuspendEnergy)
              (curReading.relTime - fr.relTime)
          else ""
        | none => ""
      else ""
    runPart ++ msgPart ++ energyPart ++ relPart ++ ratePart ++ avgPart

/-- `BatteryMonitor::setPowerState`.  `now` is the wall clock, `relNow` the
monotonic clock at the time of the call. -/
def setPowerState (m : BatteryMonitor) (powerState : PowerState)
    (now relNow : ℤ) : BatteryMonitor × List String :=
  match powerState with
  | .Suspended =>
    let m' := { m with enterSuspendTime := some now }
    (m', [printMsg m' relNow "Going to sleep" ⟨0⟩])
  | .Awake =>
    match m.enterSuspendTime with
    | none => (m, [])
    | some t =>
      let suspendTime := now - t
      let m' := { m with enterSuspendTime := none, printSuspendStats := true }
      (m', [printMsg m' relNow
        ("Resumed from " ++ formatRelTime suspendTime ++ " sleep") ⟨0⟩])
  | .Hibernating => (m, [])

/-- `BatteryMonitor::setBatteryState`. -/
def setBatteryState (m : BatteryMonitor) (batteryState : BatteryState)
    (relNow : ℤ) : BatteryMonitor × List String :=
  match batteryState with
  | .Idle => (m, [printMsg m relNow "Battery idle" ⟨0⟩])
  | .Charging =>
    let m' := { m with firstReading := none, readings := [],
                       totalSuspendEnergy := 0 }
    (m', [printMsg m' relNow "Battery charging" ⟨0⟩])
  | .Discharging =>
    let m' := { m with firstReading := none, readings := [],
                       totalSuspendEnergy := 0 }
    (m', [printMsg m' relNow "Battery discharging" ⟨0⟩])

/-- `BatteryMonitor::setBatteryLimits`. -/
def setBatteryLimits (m : BatteryMonitor) (empty full : ℚ) : BatteryMonitor :=
  { m with energyEmpty := some empty, energyFull := some full }

/-- The window insertion of `updateEnergy`: `push_back`, then `pop_front`
when the length exceeds 2. -/
def trimWindow (l : List Reading) : List Reading :=
  if l.length > 2 then l.tail else l

/-- `BatteryMonitor::updateEnergy`. -/
def updateEnergy (m : BatteryMonitor) (energy : ℚ) (now relNow : ℤ) :
    BatteryMonitor × List String :=
  if m.isSuspended then (m, [])
  else
    let r : Reading := ⟨now, relNow, energy⟩
    let fr := match m.firstReading with
      | none => some r
      | some x => some x
    let rs := trimWindow (m.readings ++ [r])
    if m.printSuspendStats then
      let tse :=
        if rs.length > 1 then
          m.totalSuspendEnergy +
            (energy - (match rs.dropLast.getLast? with
                       | some p => p.energy
                       | none => 0))
        else m.totalSuspendEnergy
      let m' := { m with firstReading := fr, readings := rs,
                         totalSuspendEnergy := tse,
                         printSuspendStats := false }
      (m', [printMsg m' relNow "Sleep energy use" (Stat.relEnergy.orStat .rate)])
    else
      let m' := { m with firstReading := fr, readings := rs }
      (m', [printMsg m' relNow ""
        ((Stat.energy.orStat .rate).orStat .averageRate)])

/-- One entry-point invocation, with the clock samples it observes. -/
inductive EntryCall
  | power (ps : PowerState) (now relNow : ℤ)
  | battery (bs : BatteryState) (relNow : ℤ)
  | limits (empty full : ℚ)
  | energy (e : ℚ) (now relNow : ℤ)

/-- State transition of one entry-point invocation (outputs discarded). -/
def stepCall (m : BatteryMonitor) : EntryCall → BatteryMonitor
  | .power ps now relNow => (setPowerState m ps now relNow).1
  | .battery bs relNow => (setBatteryState m bs relNow).1
  | .limits e f => setBatteryLimits m e f
  | .energy e now relNow => (updateEnergy m e now relNow).1

/-- Running a sequence of entry-point invocations. -/
def runCalls (m : BatteryMonitor) (cs : List EntryCall) : BatteryMonitor :=
  cs.foldl stepCall m

/-- An `updateEnergy` invocation: (energy, wall clock, monotonic clock). -/
def mkReading (u : ℚ × ℤ × ℤ) : Reading :=
  ⟨u.2.1, u.2.2, u.1⟩

/-- Running a sequence of `updateEnergy` invocations. -/
def runUpdates (m : BatteryMonitor) (us : List (ℚ × ℤ × ℤ)) : BatteryMonitor :=
  us.foldl (fun acc u => (updateEnergy acc u.1 u.2.1 u.2.2).1) m

/-- The typed property values delivered by the battery-device event source
(the `UPowerDeviceProperty` variant of the source; `double` modelled by ℚ). -/
inductive UProp
  | strVal : String → UProp
  | u64 : ℕ → UProp
  | u32 : ℕ → UProp
  | boolVal : Bool → UProp
  | dbl : ℚ → UProp
  | i32 : ℤ → UProp
  | i64 : ℤ → UProp
deriving DecidableEq, Repr

/-- `std::get<uint32_t>`: succeeds only when the variant holds a `uint32_t`
(a failure models the `bad_variant_access` exception). -/
def UProp.getU32 : UProp → Option ℕ
  | .u32 n => some n
  | _ => none

/-- `std::get<double>`. -/
def UProp.getDouble : UProp → Option ℚ
  | .dbl d => some d
  | _ => none

/-- A property notification: named properties in their order of appearance
(keys assumed distinct, as in the `unordered_map` of the source). -/
def UProperties := List (String × UProp)

/-- `properties.find(key)` of the source. -/
def findProp (props : List (String × UProp)) (key : String) : Option UProp :=
  (props.find? (fun p => p.1 = key)).map Prod.snd

/-- A forwarded call to one of the three engine entry points. -/
inductive EngineCall
  | setBatteryState (bs : BatteryState)
  | setBatteryLimits (empty full : ℚ)
  | updateEnergy (e : ℚ)
deriving DecidableEq, Repr

/-- First block of `processBatteryProperties`: the "State" property. -/
def stateCalls (props : List (String × UProp)) : Option (List EngineCall) :=
  match findProp props "State" with
  | some v =>
    (v.getU32).map (fun state =>
      match state with
      | 1 => [.setBatteryState .Charging]
      | 2 => [.setBatteryState .Discharging]
      | 4 => [.setBatteryState .Idle]
      | 5 => [.setBatteryState .Idle]
      | _ => [])
  | none => some []

/-- Second block of `processBatteryProperties`: "EnergyEmpty"/"EnergyFull",
forwarded only when both are present. -/
def limitCalls (props : List (String × UProp)) : Option (List EngineCall) :=
  match findProp props "EnergyEmpty" with
  | some v =>
    (v.getDouble).bind (fun e =>
      match findProp props "EnergyFull" with
      | some w => (w.getDouble).map (fun f => [EngineCall.setBatteryLimits e f])
      | none => some [])
  | none => some []

/-- Third block of `processBatteryProperties`: the "Energy" property. -/
def energyCalls (props : List (String × UProp)) : Option (List EngineCall) :=
  match findProp props "Energy" with
  | some v => (v.getDouble).map (fun e => [EngineCall.updateEnergy e])
  | none => some []

/-- `processBatteryProperties`: the three blocks run in the fixed textual
order State, limits, Energy; the result is the sequence of engine calls they
forward (`none` models a thrown `bad_variant_access`). -/
def processBatteryProperties (props : List (String × UProp)) :
    Option (List EngineCall) :=
  (stateCalls props).bind (fun s =>
    (limitCalls props).bind (fun l =>
      (energyCalls props).map (fun e => s ++ l ++ e)))

/-! Helper lemmas (shared; not tied to a single claim). -/

theorem updateEnergy_readings_eq (m : BatteryMonitor) (e : ℚ) (now relNow : ℤ)
    (h : m.isSuspended = false) :
    (updateEnergy m e now relNow).1.readings =
      trimWindow (m.readings ++ [⟨now, relNow, e⟩]) := by
  by_cases hf : m.printSuspendStats <;> simp [updateEnergy, h, hf]

theorem updateEnergy_enterSuspendTime (m : BatteryMonitor) (e : ℚ)
    (now relNow : ℤ) :
    (updateEnergy m e now relNow).1.enterSuspendTime = m.enterSuspendTime := by
  by_cases hs : m.isSuspended <;> by_cases hf : m.printSuspendStats <;>
    simp [updateEnergy, hs, hf]

theorem trimWindow_eq_drop (l : List Reading) (r : Reading)
    (h : l.length ≤ 2) :
    trimWindow (l ++ [r]) = (l ++ [r]).drop ((l.length + 1) - 2) := by
  rcases l with _ | ⟨a, l'⟩
  · simp [trimWindow]
  · rcases l' with _ | ⟨b, l''⟩
    · simp [trimWindow]
    · rcases l'' with _ | ⟨c, l3⟩
      · simp [trimWindow]
      · exfalso
        simp only [List.length_cons] at h
        omega

theorem trimWindow_length_le (l : List Reading) (r : Reading)
    (h : l.length ≤ 2) :
    (trimWindow (l ++ [r])).length ≤ 2 := by
  rw [trimWindow]
  split <;> simp_all

theorem penultimate_trimWindow (l : List Reading) (r prev : Reading)
    (h : l.getLast? = some prev) :
    (trimWindow (l ++ [r])).dropLast.getLast? = some prev := by
  rcases l with _ | ⟨a, l'⟩
  · simp at h
  · rcases l' with _ | ⟨b, l''⟩
    · simp at h
      simp [trimWindow, h]
    · have hlen : ((a :: b :: l'') ++ [r]).length > 2 := by simp
      rw [trimWindow, if_pos hlen]
      have : (a :: b :: l'') ++ [r] = a :: ((b :: l'') ++ [r]) := rfl
      rw [this]
      simp only [List.tail_cons, List.dropLast_concat]
      rw [List.getLast?_cons_cons] at h
      exact h

theorem trimWindow_length_pos (l : List Reading) (r : Reading)
    (h : l ≠ []) :
    1 < (trimWindow (l ++ [r])).length := by
  rcases l with _ | ⟨a, l'⟩
  · simp at h
  · rw [trimWindow]
    split
    · rename_i hc
      simp only [List.length_tail, List.length_append, List.length_cons] at hc ⊢
      omega
    · simp

/-- Claim C2: any `updateEnergy` call made while `isSuspended()` is true
returns with no state change at all (in particular First Reading, the Sample
Window and the suspend-energy accumulator are untouched) and admits no new
Reading and emits no output. -/
theorem updateEnergy_suspended_noop (m : BatteryMonitor) (energy : ℚ)
    (now relNow : ℤ) (h : m.isSuspended = true) :
    updateEnergy m energy now relNow = (m, []) := by
  simp [updateEnergy, h]

/-- Witness for `updateEnergy_suspended_noop` at a concrete suspended state. -/
theorem updateEnergy_suspended_noop_witness :
    ({ BatteryMonitor.init with enterSuspendTime := some 5 } :
      BatteryMonitor).isSuspended = true ∧
    updateEnergy { BatteryMonitor.init with enterSuspendTime := some 5 } 7 1 2 =
      ({ BatteryMonitor.init with enterSuspendTime := some 5 }, []) :=
  ⟨rfl, updateEnergy_suspended_noop _ 7 1 2 rfl⟩

/-- Claim C3: `setBatteryState(Idle)` leaves First Reading, the Sample Window
and the suspend-energy accumulator unchanged, while `setBatteryState` with
Charging or Discharging always resets all three (First Reading unset, window
empty, accumulator zero), for every prior state. -/
theorem setBatteryState_reset_and_idle_frame (m : BatteryMonitor)
    (relNow : ℤ) :
    ((setBatteryState m .Idle relNow).1.firstReading = m.firstReading ∧
     (setBatteryState m .Idle relNow).1.readings = m.readings ∧
     (setBatteryState m .Idle relNow).1.totalSuspendEnergy =
       m.totalSuspendEnergy) ∧
    ((setBatteryState m .Charging relNow).1.firstReading = none ∧
     (setBatteryState m .Charging relNow).1.readings = [] ∧
     (setBatteryState m .Charging relNow).1.totalSuspendEnergy = 0) ∧
    ((setBatteryState m .Discharging relNow).1.firstReading = none ∧
     (setBatteryState m .Discharging relNow).1.readings = [] ∧
     (setBatteryState m .Discharging relNow).1.totalSuspendEnergy = 0) := by
  simp [setBatteryState]

/-- Claim C8: `setBatteryLimits` unconditionally overwrites both capacity
limits (no validation relating `empty` and `full`), a second call supersedes
the first completely, and no `setBatteryState` call changes the stored
limits. -/
theorem setBatteryLimits_unconditional_overwrite (m : BatteryMonitor)
    (empty full e2 f2 : ℚ) (bs : BatteryState) (relNow : ℤ) :
    (setBatteryLimits m empty full).energyEmpty = some empty ∧
    (setBatteryLimits m empty full).energyFull = some full ∧
    setBatteryLimits (setBatteryLimits m empty full) e2 f2 =
      setBatteryLimits m e2 f2 ∧
    (setBatteryState m bs relNow).1.energyEmpty = m.energyEmpty ∧
    (setBatteryState m bs relNow).1.energyFull = m.energyFull := by
  refine ⟨rfl, rfl, rfl, ?_, ?_⟩ <;> cases bs <;> rfl

/-- Counterexample to claim C6 as stated: for the negative duration of
-45 seconds the claimed decomposition emits the nonzero token "-45s", but
`formatRelTime` emits unit tokens only when their count is strictly positive
and returns the empty string. -/
theorem formatRelTime_negative_duration_cex :
    formatRelTime (-45000) = "" ∧ formatRelTimeSpec (-45000) = "-45s" ∧
    formatRelTime (-45000) ≠ formatRelTimeSpec (-45000) := by
  decide

/-- Claim C6 (amended): for every NONNEGATIVE duration the formatter
truncates to whole seconds, decomposes into hours, minutes and remainder
seconds, and concatenates exactly the nonzero unit tokens in the order h, m,
s with no separator, returning "" for a zero duration; in particular
0 s → "", 3661 s → "1h1m1s", 90 s → "1m30s", 45 s → "45s". -/
theorem formatRelTime_truncating_decomposition :
    (∀ n : ℕ, formatRelTime (n : ℤ) = formatRelTimeSpec (n : ℤ)) ∧
    formatRelTime 0 = "" ∧
    formatRelTime 3661000 = "1h1m1s" ∧
    formatRelTime 90000 = "1m30s" ∧
    formatRelTime 45000 = "45s" := by
  refine ⟨?_, by decide, by decide, by decide, by decide⟩
  intro n
  have e0 : tquot (n : ℤ) 1000 = ((n / 1000 : ℕ) : ℤ) := rfl
  have e1 : tquot ((n / 1000 : ℕ) : ℤ) 3600 = ((n / 1000 / 3600 : ℕ) : ℤ) := rfl
  have e2 : tquot ((n / 1000 : ℕ) : ℤ) 60 = ((n / 1000 / 60 : ℕ) : ℤ) := rfl
  simp only [formatRelTime, formatRelTimeSpec, e0, e1, e2]
  split_ifs <;> first | rfl | omega

/-- Claim C5: `printRate` renders watts as energyDeltaWh divided by
(durationMilliseconds / 3600000); with both limits set it renders
percent-per-hour = (100·energyDeltaWh/(full−empty)) / hours as "%/hr" to one
decimal when its absolute value is at least 1.0 and otherwise times 24 as
"%/day"; in particular +2.5 Wh over 1 hour with limits (0, 100) renders
"2.50 W (2.5%/hr)" and the same delta over 10 hours "0.25 W (6.0%/day)". -/
theorem printRate_formula_and_threshold (energyDiff e f : ℚ) (d : ℤ)
    (hd : 0 < d) :
    (printRate (some e) (some f) energyDiff d =
      formatFixed 2 (energyDiff / ((d : ℚ) / 3600000)) ++ " W" ++
        (if 1 ≤ |(100 * energyDiff / (f - e)) / ((d : ℚ) / 3600000)| then
          " (" ++ formatFixed 1 ((100 * energyDiff / (f - e)) /
            ((d : ℚ) / 3600000)) ++ "%/hr)"
        else
          " (" ++ formatFixed 1 ((100 * energyDiff / (f - e)) /
            ((d : ℚ) / 3600000) * 24) ++ "%/day)")) ∧
    printRate none none energyDiff d =
      formatFixed 2 (energyDiff / ((d : ℚ) / 3600000)) ++ " W" ∧
    printRate (some 0) (some 100) (5 / 2) 3600000 = "2.50 W (2.5%/hr)" ∧
    printRate (some 0) (some 100) (5 / 2) 36000000 = "0.25 W (6.0%/day)" := by
  refine ⟨?_, ?_, ?_, ?_⟩
  · unfold printRate
    dsimp only
    rw [show ((1000 * 60 * 60 : ℚ)) = 3600000 from by norm_num]
    split_ifs <;> simp only [String.append_assoc]
  · unfold printRate
    dsimp only
    rw [show ((1000 * 60 * 60 : ℚ)) = 3600000 from by norm_num]
  · unfold printRate
    dsimp only
    rw [show ((5 : ℚ) / 2) / ((((3600000 : ℤ)) : ℚ) / (1000 * 60 * 60)) = 5 / 2
          from by push_cast; norm_num,
        show (100 * ((5 : ℚ) / 2) / (100 - 0)) /
            ((((3600000 : ℤ)) : ℚ) / (1000 * 60 * 60)) = 5 / 2
          from by push_cast; norm_num,
        if_pos (show (1 : ℚ) ≤ |(5 : ℚ) / 2| from by
          rw [abs_of_nonneg] <;> norm_num)]
    unfold formatFixed
    rw [show round (((5 : ℚ) / 2) * (10 : ℚ) ^ 2) = 250 from by
          norm_num [round_eq],
        show round (((5 : ℚ) / 2) * (10 : ℚ) ^ 1) = 25 from by
          norm_num [round_eq]]
    rfl
  · unfold printRate
    dsimp only
    rw [show ((5 : ℚ) / 2) / ((((36000000 : ℤ)) : ℚ) / (1000 * 60 * 60)) = 1 / 4
          from by push_cast; norm_num,
        show (100 * ((5 : ℚ) / 2) / (100 - 0)) /
            ((((36000000 : ℤ)) : ℚ) / (1000 * 60 * 60)) = 1 / 4
          from by push_cast; norm_num,
        if_neg (show ¬ ((1 : ℚ) ≤ |(1 : ℚ) / 4|) from by
          rw [abs_of_nonneg] <;> norm_num)]
    unfold formatFixed
    rw [show round (((1 : ℚ) / 4) * (10 : ℚ) ^ 2) = 25 from by
          norm_num [round_eq],
        show round ((((1 : ℚ) / 4) * 24) * (10 : ℚ) ^ 1) = 60 from by
          norm_num [round_eq]]
    rfl

/-- Witness for `printRate_formula_and_threshold` at a concrete positive
duration. -/
theorem printRate_formula_and_threshold_witness :
    (0 : ℤ) < 3600000 ∧
    printRate (some 0) (some 100) (5 / 2) 3600000 = "2.50 W (2.5%/hr)" :=
  ⟨by decide,
   (printRate_formula_and_threshold (5 / 2) 0 100 3600000 (by decide)).2.2.1⟩

/-- Counterexample to claim C9 as stated: in a notification whose properties
appear in the order Energy, State, the translation step still forwards the
State call first — the forwarded calls follow the fixed source order State,
limits, Energy, not the order of appearance. -/
theorem processBatteryProperties_order_cex :
    processBatteryProperties [("Energy", UProp.dbl 5), ("State", UProp.u32 1)] =
      some [EngineCall.setBatteryState .Charging, EngineCall.updateEnergy 5] ∧
    some [EngineCall.setBatteryState .Charging, EngineCall.updateEnergy 5] ≠
      some [EngineCall.updateEnergy 5, EngineCall.setBatteryState .Charging] :=
  ⟨rfl, by decide⟩

theorem stateCalls_cases (props : List (String × UProp)) (s : List EngineCall)
    (h : stateCalls props = some s) :
    s = [] ∨ ∃ bs, s = [EngineCall.setBatteryState bs] := by
  unfold stateCalls at h
  split at h
  · rename_i v heq
    rcases hv : v.getU32 with _ | c
    · rw [hv] at h
      simp at h
    · rw [hv] at h
      simp only [Option.map_some'] at h
      rcases Option.some.inj h with rfl
      split
      · exact Or.inr ⟨_, rfl⟩
      · exact Or.inr ⟨_, rfl⟩
      · exact Or.inr ⟨_, rfl⟩
      · exact Or.inr ⟨_, rfl⟩
      · exact Or.inl rfl
  · rcases Option.some.inj h with rfl
    exact Or.inl rfl

theorem limitCalls_cases (props : List (String × UProp)) (l : List EngineCall)
    (h : limitCalls props = some l) :
    l = [] ∨ ∃ e f, l = [EngineCall.setBatteryLimits e f] := by
  unfold limitCalls at h
  split at h
  · rename_i v heq
    rcases hv : v.getDouble with _ | e
    · rw [hv] at h
      simp at h
    · rw [hv] at h
      simp only [Option.some_bind] at h
      split at h
      · rename_i w heq2
        rcases hw : w.getDouble with _ | f
        · rw [hw] at h
          simp at h
        · rw [hw] at h
          simp only [Option.map_some'] at h
          rcases Option.some.inj h with rfl
          exact Or.inr ⟨_, _, rfl⟩
      · rcases Option.some.inj h with rfl
        exact Or.inl rfl
  · rcases Option.some.inj h with rfl
    exact Or.inl rfl

theorem limitCalls_of_full_missing (props : List (String × UProp))
    (l : List EngineCall) (hfull : findProp props "EnergyFull" = none)
    (h : limitCalls props = some l) : l = [] := by
  unfold limitCalls at h
  split at h
  · rename_i v heq
    rcases hv : v.getDouble with _ | e
    · rw [hv] at h
      simp at h
    · rw [hv] at h
      simp only [Option.some_bind] at h
      rw [hfull] at h
      rcases Option.some.inj h with rfl
      rfl
  · rcases Option.some.inj h with rfl
    rfl

theorem energyCalls_cases (props : List (String × UProp))
    (ec : List EngineCall) (h : energyCalls props = some ec) :
    ec = [] ∨ ∃ q, ec = [EngineCall.updateEnergy q] := by
  unfold energyCalls at h
  split at h
  · rename_i v heq
    rcases hv : v.getDouble with _ | e
    · rw [hv] at h
      simp at h
    · rw [hv] at h
      simp only [Option.map_some'] at h
      rcases Option.some.inj h with rfl
      exact Or.inr ⟨_, rfl⟩
  · rcases Option.some.inj h with rfl
    exact Or.inl rfl

theorem energyCalls_of_energy_missing (props : List (String × UProp))
    (ec : List EngineCall) (hen : findProp props "Energy" = none)
    (h : energyCalls props = some ec) : ec = [] := by
  unfold energyCalls at h
  rw [hen] at h
  rcases Option.some.inj h with rfl
  rfl

/-- Claim C9 (amended): the translation step runs its three blocks in the
FIXED source order State, then limits, then Energy — regardless of the order
in which the properties appear in the notification — and the blocks forward:
State codes 1, 2, 4, 5 as Charging, Discharging, Idle, Idle (other codes and
an absent State forward nothing); `setBatteryLimits` exactly when EnergyEmpty
and EnergyFull are BOTH present (nothing when EnergyEmpty is absent, and
nothing when EnergyEmpty is present but EnergyFull is absent); and
`updateEnergy` exactly when Energy is present.  Consequently no
`setBatteryLimits` call is ever forwarded when either limit is missing, and
no `updateEnergy` call when Energy is missing. -/
theorem processBatteryProperties_translation :
    (∀ (props : List (String × UProp)) (calls : List EngineCall),
      processBatteryProperties props = some calls →
      ∃ s l en, stateCalls props = some s ∧ limitCalls props = some l ∧
        energyCalls props = some en ∧ calls = s ++ l ++ en) ∧
    (∀ (props : List (String × UProp)) (c : ℕ),
      findProp props "State" = some (.u32 c) →
      stateCalls props =
        some (match c with
              | 1 => [EngineCall.setBatteryState .Charging]
              | 2 => [EngineCall.setBatteryState .Discharging]
              | 4 => [EngineCall.setBatteryState .Idle]
              | 5 => [EngineCall.setBatteryState .Idle]
              | _ => ([] : List EngineCall))) ∧
    (∀ props : List (String × UProp), findProp props "State" = none →
      stateCalls props = some []) ∧
    (∀ (props : List (String × UProp)) (e f : ℚ),
      findProp props "EnergyEmpty" = some (.dbl e) →
      findProp props "EnergyFull" = some (.dbl f) →
      limitCalls props = some [EngineCall.setBatteryLimits e f]) ∧
    (∀ props : List (String × UProp), findProp props "EnergyEmpty" = none →
      limitCalls props = some []) ∧
    (∀ (props : List (String × UProp)) (e : ℚ),
      findProp props "EnergyEmpty" = some (.dbl e) →
      findProp props "EnergyFull" = none → limitCalls props = some []) ∧
    (∀ (props : List (String × UProp)) (en : ℚ),
      findProp props "Energy" = some (.dbl en) →
      energyCalls props = some [EngineCall.updateEnergy en]) ∧
    (∀ props : List (String × UProp), findProp props "Energy" = none →
      energyCalls props = some []) ∧
    (∀ (props : List (String × UProp)) (calls : List EngineCall) (e f : ℚ),
      processBatteryProperties props = some calls →
      (findProp props "EnergyEmpty" = none ∨
        findProp props "EnergyFull" = none) →
      EngineCall.setBatteryLimits e f ∉ calls) ∧
    (∀ (props : List (String × UProp)) (calls : List EngineCall) (en : ℚ),
      processBatteryProperties props = some calls →
      findProp props "Energy" = none →
      EngineCall.updateEnergy en ∉ calls) ∧
    (∀ (props : List (String × UProp)) (c : ℕ) (e f en : ℚ),
      findProp props "State" = some (.u32 c) →
      findProp props "EnergyEmpty" = some (.dbl e) →
      findProp props "EnergyFull" = some (.dbl f) →
      findProp props "Energy" = some (.dbl en) →
      processBatteryProperties props =
        some ((match c with
               | 1 => [EngineCall.setBatteryState .Charging]
               | 2 => [EngineCall.setBatteryState .Discharging]
               | 4 => [EngineCall.setBatteryState .Idle]
               | 5 => [EngineCall.setBatteryState .Idle]
               | _ => ([] : List EngineCall)) ++
              [EngineCall.setBatteryLimits e f] ++
              [EngineCall.updateEnergy en])) := by
  have decomp : ∀ (props : List (String × UProp)) (calls : List EngineCall),
      processBatteryProperties props = some calls →
      ∃ s l en, stateCalls props = some s ∧ limitCalls props = some l ∧
        energyCalls props = some en ∧ calls = s ++ l ++ en := by
    intro props calls hp
    unfold processBatteryProperties at hp
    rcases hs : stateCalls props with _ | s <;> rw [hs] at hp
    · simp at hp
    rcases hl : limitCalls props with _ | l <;> rw [hl] at hp
    · simp at hp
    rcases he : energyCalls props with _ | ec <;> rw [he] at hp
    · simp at hp
    simp only [Option.some_bind, Option.map_some'] at hp
    exact ⟨s, l, ec, rfl, rfl, rfl, (Option.some.inj hp).symm⟩
  have hlimEmpty : ∀ props : List (String × UProp),
      findProp props "EnergyEmpty" = none → limitCalls props = some [] := by
    intro props h
    unfold limitCalls
    rw [h]
  have hlimHalf : ∀ (props : List (String × UProp)) (e : ℚ),
      findProp props "EnergyEmpty" = some (.dbl e) →
      findProp props "EnergyFull" = none → limitCalls props = some [] := by
    intro props e h1 h2
    unfold limitCalls
    rw [h1, h2]
    simp [UProp.getDouble]
  refine ⟨decomp, ?_, ?_, ?_, hlimEmpty, hlimHalf, ?_, ?_, ?_, ?_, ?_⟩
  · intro props c h
    unfold stateCalls
    rw [h]
    simp [UProp.getU32]
  · intro props h
    unfold stateCalls
    rw [h]
  · intro props e f h1 h2
    unfold limitCalls
    rw [h1, h2]
    simp [UProp.getDouble]
  · intro props en h
    unfold energyCalls
    rw [h]
    simp [UProp.getDouble]
  · intro props h
    unfold energyCalls
    rw [h]
  · intro props calls e f hp hmiss
    obtain ⟨s, l, ec, hs, hl, he, rfl⟩ := decomp props calls hp
    have hl0 : l = [] := by
      rcases hmiss with hm | hm
      · rw [hlimEmpty props hm] at hl
        exact (Option.some.inj hl).symm
      · exact limitCalls_of_full_missing props l hm hl
    subst hl0
    rcases stateCalls_cases props s hs with rfl | ⟨bs, rfl⟩ <;>
      rcases energyCalls_cases props ec he with rfl | ⟨q, rfl⟩ <;> simp
  · intro props calls en hp hen
    obtain ⟨s, l, ec, hs, hl, he, rfl⟩ := decomp props calls hp
    rcases energyCalls_of_energy_missing props ec hen he with rfl
    rcases stateCalls_cases props s hs with rfl | ⟨bs, rfl⟩ <;>
      rcases limitCalls_cases props l hl with rfl | ⟨e2, f2, rfl⟩ <;> simp
  · intro props c e f en h1 h2 h3 h4
    unfold processBatteryProperties stateCalls limitCalls energyCalls
    rw [h1, h2, h3, h4]
    simp [UProp.getU32, UProp.getDouble]

/-- Witness for `processBatteryProperties_translation`: a notification with
all four properties (appearance order irrelevant to the forwarded order), one
with EnergyEmpty absent, and one with only EnergyEmpty present. -/
theorem processBatteryProperties_translation_witness :
    (findProp [("State", UProp.u32 2), ("EnergyEmpty", UProp.dbl 3),
        ("EnergyFull", UProp.dbl 50), ("Energy", UProp.dbl 40)] "State" =
      some (UProp.u32 2) ∧
     findProp [("State", UProp.u32 2), ("EnergyEmpty", UProp.dbl 3),
        ("EnergyFull", UProp.dbl 50), ("Energy", UProp.dbl 40)]
        "EnergyEmpty" = some (UProp.dbl 3) ∧
     findProp [("State", UProp.u32 2), ("EnergyEmpty", UProp.dbl 3),
        ("EnergyFull", UProp.dbl 50), ("Energy", UProp.dbl 40)]
        "EnergyFull" = some (UProp.dbl 50) ∧
     findProp [("State", UProp.u32 2), ("EnergyEmpty", UProp.dbl 3),
        ("EnergyFull", UProp.dbl 50), ("Energy", UProp.dbl 40)] "Energy" =
      some (UProp.dbl 40) ∧
     processBatteryProperties [("State", UProp.u32 2),
        ("EnergyEmpty", UProp.dbl 3), ("EnergyFull", UProp.dbl 50),
        ("Energy", UProp.dbl 40)] =
      some ([EngineCall.setBatteryState .Discharging] ++
            [EngineCall.setBatteryLimits 3 50] ++
            [EngineCall.updateEnergy 40]) ∧
     stateCalls [("State", UProp.u32 2), ("EnergyEmpty", UProp.dbl 3),
        ("EnergyFull", UProp.dbl 50), ("Energy", UProp.dbl 40)] =
      some [EngineCall.setBatteryState .Discharging] ∧
     limitCalls [("State", UProp.u32 2), ("EnergyEmpty", UProp.dbl 3),
        ("EnergyFull", UProp.dbl 50), ("Energy", UProp.dbl 40)] =
      some [EngineCall.setBatteryLimits 3 50] ∧
     energyCalls [("State", UProp.u32 2), ("EnergyEmpty", UProp.dbl 3),
        ("EnergyFull", UProp.dbl 50), ("Energy", UProp.dbl 40)] =
      some [EngineCall.updateEnergy 40] ∧
     ∃ s l en,
       stateCalls [("State", UProp.u32 2), ("EnergyEmpty", UProp.dbl 3),
          ("EnergyFull", UProp.dbl 50), ("Energy", UProp.dbl 40)] = some s ∧
       limitCalls [("State", UProp.u32 2), ("EnergyEmpty", UProp.dbl 3),
          ("EnergyFull", UProp.dbl 50), ("Energy", UProp.dbl 40)] = some l ∧
       energyCalls [("State", UProp.u32 2), ("EnergyEmpty", UProp.dbl 3),
          ("EnergyFull", UProp.dbl 50), ("Energy", UProp.dbl 40)] =
         some en ∧
       [EngineCall.setBatteryState .Discharging,
        EngineCall.setBatteryLimits 3 50,
        EngineCall.updateEnergy 40] = s ++ l ++ en) ∧
    (findProp [("EnergyFull", UProp.dbl 50), ("Energy", UProp.dbl 40)]
        "EnergyEmpty" = none ∧
     limitCalls [("EnergyFull", UProp.dbl 50), ("Energy", UProp.dbl 40)] =
      some [] ∧
     processBatteryProperties
        [("EnergyFull", UProp.dbl 50), ("Energy", UProp.dbl 40)] =
      some [EngineCall.updateEnergy 40] ∧
     EngineCall.setBatteryLimits 1 2 ∉ [EngineCall.updateEnergy 40]) ∧
    (findProp [("EnergyEmpty", UProp.dbl 3)] "State" = none ∧
     stateCalls [("EnergyEmpty", UProp.dbl 3)] = some [] ∧
     findProp [("EnergyEmpty", UProp.dbl 3)] "EnergyEmpty" =
      some (UProp.dbl 3) ∧
     findProp [("EnergyEmpty", UProp.dbl 3)] "EnergyFull" = none ∧
     limitCalls [("EnergyEmpty", UProp.dbl 3)] = some [] ∧
     findProp [("EnergyEmpty", UProp.dbl 3)] "Energy" = none ∧
     energyCalls [("EnergyEmpty", UProp.dbl 3)] = some [] ∧
     processBatteryProperties [("EnergyEmpty", UProp.dbl 3)] = some [] ∧
     EngineCall.updateEnergy 7 ∉ ([] : List EngineCall)) :=
  ⟨⟨rfl, rfl, rfl, rfl,
    processBatteryProperties_translation.2.2.2.2.2.2.2.2.2.2
      [("State", UProp.u32 2), ("EnergyEmpty", UProp.dbl 3),
       ("EnergyFull", UProp.dbl 50), ("Energy", UProp.dbl 40)]
      2 3 50 40 rfl rfl rfl rfl,
    processBatteryProperties_translation.2.1
      [("State", UProp.u32 2), ("EnergyEmpty", UProp.dbl 3),
       ("EnergyFull", UProp.dbl 50), ("Energy", UProp.dbl 40)] 2 rfl,
    processBatteryProperties_translation.2.2.2.1
      [("State", UProp.u32 2), ("EnergyEmpty", UProp.dbl 3),
       ("EnergyFull", UProp.dbl 50), ("Energy", UProp.dbl 40)] 3 50 rfl rfl,
    processBatteryProperties_translation.2.2.2.2.2.2.1
      [("State", UProp.u32 2), ("EnergyEmpty", UProp.dbl 3),
       ("EnergyFull", UProp.dbl 50), ("Energy", UProp.dbl 40)] 40 rfl,
    processBatteryProperties_translation.1
      [("State", UProp.u32 2), ("EnergyEmpty", UProp.dbl 3),
       ("EnergyFull", UProp.dbl 50), ("Energy", UProp.dbl 40)]
      [EngineCall.setBatteryState .Discharging,
       EngineCall.setBatteryLimits 3 50,
       EngineCall.updateEnergy 40] rfl⟩,
   ⟨rfl,
    processBatteryProperties_translation.2.2.2.2.1
      [("EnergyFull", UProp.dbl 50), ("Energy", UProp.dbl 40)] rfl,
    rfl,
    processBatteryProperties_translation.2.2.2.2.2.2.2.2.1
      [("EnergyFull", UProp.dbl 50), ("Energy", UProp.dbl 40)]
      [EngineCall.updateEnergy 40] 1 2 rfl (Or.inl rfl)⟩,
   ⟨rfl,
    processBatteryProperties_translation.2.2.1
      [("EnergyEmpty", UProp.dbl 3)] rfl,
    rfl, rfl,
    processBatteryProperties_translation.2.2.2.2.2.1
      [("EnergyEmpty", UProp.dbl 3)] 3 rfl rfl,
    rfl,
    processBatteryProperties_translation.2.2.2.2.2.2.2.1
      [("EnergyEmpty", UProp.dbl 3)] rfl,
    rfl,
    processBatteryProperties_translation.2.2.2.2.2.2.2.2.2.1
      [("EnergyEmpty", UProp.dbl 3)] [] 7 rfl rfl⟩⟩

theorem exists_prefix_of_append (X Y : String) : ∃ s, X ++ Y = s ++ Y :=
  ⟨X, rfl⟩

theorem contains_of_shape (A M : String) :
    ∃ pre post, A ++ (" - " ++ M) = pre ++ (M ++ post) :=
  ⟨A ++ " - ", "", by simp [String.append_assoc]⟩

theorem contains_of_shape2 (A M B C D E : String) :
    ∃ pre post, A ++ (" - " ++ M) ++ B ++ C ++ D ++ E = pre ++ (M ++ post) :=
  ⟨A ++ " - ", B ++ (C ++ (D ++ E)), by simp [String.append_assoc]⟩

theorem printMsg_contains_msg (m : BatteryMonitor) (relNow : ℤ) (msg : String)
    (flags : StatFlags) (h : msg ≠ "") :
    ∃ pre post, printMsg m relNow msg flags = pre ++ (msg ++ post) := by
  rcases hg : m.readings.getLast? with _ | cur
  · simp only [printMsg, hg, h, ite_false, if_neg]
    exact contains_of_shape _ _
  · simp only [printMsg, hg, h, ite_false, if_neg]
    exact contains_of_shape2 _ _ _ _ _ _

/-- Claim C7: with no recorded suspend-entry timestamp, `setPowerState(Awake)`
is a complete no-op (state unchanged, no output, flag untouched); with a
recorded timestamp `t` it clears the timestamp, sets the pending
suspend-report flag, and emits exactly one line that contains the formatted
suspend duration `formatRelTime (now - t)`. -/
theorem setPowerState_awake_behavior (m : BatteryMonitor) (now relNow : ℤ) :
    (m.enterSuspendTime = none → setPowerState m .Awake now relNow = (m, [])) ∧
    (∀ t, m.enterSuspendTime = some t →
      (setPowerState m .Awake now relNow).1 =
        { m with enterSuspendTime := none, printSuspendStats := true } ∧
      (setPowerState m .Awake now relNow).2 =
        [printMsg { m with enterSuspendTime := none, printSuspendStats := true }
          relNow ("Resumed from " ++ formatRelTime (now - t) ++ " sleep")
          ⟨0⟩] ∧
      ∃ pre post, (setPowerState m .Awake now relNow).2 =
        [pre ++ (formatRelTime (now - t) ++ post)]) := by
  constructor
  · intro h
    simp [setPowerState, h]
  · intro t ht
    refine ⟨?_, ?_, ?_⟩
    · simp [setPowerState, ht]
    · simp [setPowerState, ht]
    · have hmsg :
          ("Resumed from " ++ formatRelTime (now - t) ++ " sleep") ≠ "" := by
        simp [String.ext_iff]
      obtain ⟨pre, post, hp⟩ :=
        printMsg_contains_msg
          { m with enterSuspendTime := none, printSuspendStats := true } relNow
          ("Resumed from " ++ formatRelTime (now - t) ++ " sleep") ⟨0⟩ hmsg
      refine ⟨pre ++ "Resumed from ", " sleep" ++ post, ?_⟩
      simp only [setPowerState, ht]
      rw [hp]
      simp only [String.append_assoc]

/-- Witness for `setPowerState_awake_behavior`: the no-op case on the initial
state and the resume case on a concretely suspended state. -/
theorem setPowerState_awake_behavior_witness :
    (BatteryMonitor.init.enterSuspendTime = none ∧
      setPowerState BatteryMonitor.init .Awake 1 2 =
        (BatteryMonitor.init, [])) ∧
    ((⟨none, none, none, [], false, some 100000, 0⟩ :
        BatteryMonitor).enterSuspendTime = some 100000 ∧
      (setPowerState (⟨none, none, none, [], false, some 100000, 0⟩ :
          BatteryMonitor) .Awake 190000 0).1 =
        { (⟨none, none, none, [], false, some 100000, 0⟩ : BatteryMonitor) with
          enterSuspendTime := none, printSuspendStats := true } ∧
      (setPowerState (⟨none, none, none, [], false, some 100000, 0⟩ :
          BatteryMonitor) .Awake 190000 0).2 =
        [printMsg
          { (⟨none, none, none, [], false, some 100000, 0⟩ : BatteryMonitor)
            with enterSuspendTime := none, printSuspendStats := true } 0
          ("Resumed from " ++ formatRelTime ((190000 : ℤ) - 100000) ++
            " sleep") ⟨0⟩] ∧
      ∃ pre post,
        (setPowerState (⟨none, none, none, [], false, some 100000, 0⟩ :
            BatteryMonitor) .Awake 190000 0).2 =
          [pre ++ (formatRelTime ((190000 : ℤ) - 100000) ++ post)]) :=
  ⟨⟨rfl, (setPowerState_awake_behavior BatteryMonitor.init 1 2).1 rfl⟩,
   rfl,
   (setPowerState_awake_behavior
     (⟨none, none, none, [], false, some 100000, 0⟩ : BatteryMonitor)
     190000 0).2 100000 rfl⟩

/-- Claim C10: a `setBatteryState` reset leaves the pending-suspend-report
flag and the suspend-entry timestamp unchanged; hence a reading admitted with
the flag set but an empty window (as after a Charging/Discharging reset that
intervened between resume and the next reading) still emits the
"Sleep energy use" summary and consumes the flag while leaving the
suspend-energy accumulator unchanged. -/
theorem reset_preserves_pending_suspend_report :
    (∀ (m : BatteryMonitor) (bs : BatteryState) (relNow : ℤ),
      (setBatteryState m bs relNow).1.printSuspendStats =
        m.printSuspendStats ∧
      (setBatteryState m bs relNow).1.enterSuspendTime =
        m.enterSuspendTime) ∧
    (∀ (m : BatteryMonitor) (e : ℚ) (now relNow : ℤ),
      m.printSuspendStats = true → m.isSuspended = false → m.readings = [] →
      (updateEnergy m e now relNow).1.totalSuspendEnergy =
        m.totalSuspendEnergy ∧
      (updateEnergy m e now relNow).1.printSuspendStats = false ∧
      (updateEnergy m e now relNow).2 =
        [printMsg (updateEnergy m e now relNow).1 relNow "Sleep energy use"
          (Stat.relEnergy.orStat .rate)]) := by
  constructor
  · intro m bs relNow
    cases bs <;> simp [setBatteryState]
  · intro m e now relNow hf hs hr
    refine ⟨?_, ?_, ?_⟩ <;> simp [updateEnergy, hf, hs, hr, trimWindow]

/-- Witness for `reset_preserves_pending_suspend_report` at a concrete reset
state and a concrete post-reset reading. -/
theorem reset_preserves_pending_suspend_report_witness :
    ((setBatteryState (⟨none, none, none, [], true, some 7, 0⟩ :
        BatteryMonitor) .Discharging 0).1.printSuspendStats =
      (⟨none, none, none, [], true, some 7, 0⟩ :
        BatteryMonitor).printSuspendStats ∧
     (setBatteryState (⟨none, none, none, [], true, some 7, 0⟩ :
        BatteryMonitor) .Discharging 0).1.enterSuspendTime =
      (⟨none, none, none, [], true, some 7, 0⟩ :
        BatteryMonitor).enterSuspendTime) ∧
    ((⟨none, none, none, [], true, none, 0⟩ :
        BatteryMonitor).printSuspendStats = true ∧
     (⟨none, none, none, [], true, none, 0⟩ :
        BatteryMonitor).isSuspended = false ∧
     (⟨none, none, none, [], true, none, 0⟩ :
        BatteryMonitor).readings = [] ∧
     ((updateEnergy (⟨none, none, none, [], true, none, 0⟩ :
          BatteryMonitor) 9 5000 5000).1.totalSuspendEnergy =
        (⟨none, none, none, [], true, none, 0⟩ :
          BatteryMonitor).totalSuspendEnergy ∧
      (updateEnergy (⟨none, none, none, [], true, none, 0⟩ :
          BatteryMonitor) 9 5000 5000).1.printSuspendStats = false ∧
      (updateEnergy (⟨none, none, none, [], true, none, 0⟩ :
          BatteryMonitor) 9 5000 5000).2 =
        [printMsg (updateEnergy (⟨none, none, none, [], true, none, 0⟩ :
            BatteryMonitor) 9 5000 5000).1 5000 "Sleep energy use"
          (Stat.relEnergy.orStat .rate)])) :=
  ⟨reset_preserves_pending_suspend_report.1
     (⟨none, none, none, [], true, some 7, 0⟩ : BatteryMonitor)
     .Discharging 0,
   rfl, rfl, rfl,
   reset_preserves_pending_suspend_report.2
     (⟨none, none, none, [], true, none, 0⟩ : BatteryMonitor)
     9 5000 5000 rfl rfl rfl⟩

/-- Claim C1: with the pending-suspend-report flag set and the engine not
suspended, the next `updateEnergy` that leaves the window with at least two
entries adds exactly (new energy − last window entry's energy) to the
suspend-energy accumulator; and whenever the average-rate field is emitted
its numerator is exactly (current energy − First Reading's energy − total
suspend energy), so the average rate excludes exactly the suspend-attributed
deltas. -/
theorem updateEnergy_suspend_delta_and_avg_numerator :
    (∀ (m : BatteryMonitor) (e : ℚ) (now relNow : ℤ) (prev : Reading),
      m.printSuspendStats = true → m.isSuspended = false →
      m.readings.getLast? = some prev →
      2 ≤ (updateEnergy m e now relNow).1.readings.length ∧
      (updateEnergy m e now relNow).1.totalSuspendEnergy =
        m.totalSuspendEnergy + (e - prev.energy)) ∧
    (∀ (m : BatteryMonitor) (relNow : ℤ) (msg : String) (flags : StatFlags)
      (fr cur : Reading),
      flags.has .averageRate = true → m.firstReading = some fr →
      1 < m.readings.length → m.readings.getLast? = some cur →
      ∃ s, printMsg m relNow msg flags =
        s ++ (" / Avg " ++ printRate m.energyEmpty m.energyFull
          (cur.energy - fr.energy - m.totalSuspendEnergy)
          (cur.relTime - fr.relTime))) := by
  constructor
  · intro m e now relNow prev hflag hsus hlast
    have hne : m.readings ≠ [] := by
      intro h0
      rw [h0] at hlast
      simp at hlast
    constructor
    · rw [updateEnergy_readings_eq m e now relNow hsus]
      exact trimWindow_length_pos m.readings _ hne
    · have hlen2 := trimWindow_length_pos m.readings (⟨now, relNow, e⟩ : Reading) hne
      have hpen := penultimate_trimWindow m.readings (⟨now, relNow, e⟩ : Reading)
        prev hlast
      simp [updateEnergy, hsus, hflag, hlen2, hpen]
  · intro m relNow msg flags fr cur hflag hfr hlen hlast
    simp only [printMsg, hlast, hfr, hflag, hlen, eq_self_iff_true, if_true,
      ite_true]
    exact exists_prefix_of_append _ _

/-- Witness for `updateEnergy_suspend_delta_and_avg_numerator`: the
accumulator update on a one-entry window and the average-rate segment of a
concrete two-entry state. -/
theorem updateEnergy_suspend_delta_and_avg_numerator_witness :
    ((⟨none, none, some ⟨0, 0, 10⟩, [⟨0, 0, 10⟩], true, none, 0⟩ :
        BatteryMonitor).printSuspendStats = true ∧
     (⟨none, none, some ⟨0, 0, 10⟩, [⟨0, 0, 10⟩], true, none, 0⟩ :
        BatteryMonitor).isSuspended = false ∧
     (⟨none, none, some ⟨0, 0, 10⟩, [⟨0, 0, 10⟩], true, none, 0⟩ :
        BatteryMonitor).readings.getLast? = some ⟨0, 0, 10⟩ ∧
     (2 ≤ (updateEnergy (⟨none, none, some ⟨0, 0, 10⟩, [⟨0, 0, 10⟩], true,
            none, 0⟩ : BatteryMonitor) 9 60000 60000).1.readings.length ∧
      (updateEnergy (⟨none, none, some ⟨0, 0, 10⟩, [⟨0, 0, 10⟩], true, none,
          0⟩ : BatteryMonitor) 9 60000 60000).1.totalSuspendEnergy =
        (⟨none, none, some ⟨0, 0, 10⟩, [⟨0, 0, 10⟩], true, none, 0⟩ :
          BatteryMonitor).totalSuspendEnergy +
          (9 - (⟨0, 0, 10⟩ : Reading).energy))) ∧
    ((StatFlags.mk 4).has .averageRate = true ∧
     (⟨none, none, some ⟨0, 0, 10⟩, [⟨0, 0, 10⟩, ⟨60000, 60000, 9⟩], false,
        none, 0⟩ : BatteryMonitor).firstReading = some ⟨0, 0, 10⟩ ∧
     1 < (⟨none, none, some ⟨0, 0, 10⟩, [⟨0, 0, 10⟩, ⟨60000, 60000, 9⟩],
        false, none, 0⟩ : BatteryMonitor).readings.length ∧
     (⟨none, none, some ⟨0, 0, 10⟩, [⟨0, 0, 10⟩, ⟨60000, 60000, 9⟩], false,
        none, 0⟩ : BatteryMonitor).readings.getLast? =
       some ⟨60000, 60000, 9⟩ ∧
     ∃ s, printMsg (⟨none, none, some ⟨0, 0, 10⟩,
            [⟨0, 0, 10⟩, ⟨60000, 60000, 9⟩], false, none, 0⟩ :
            BatteryMonitor) 60000 "" ⟨4⟩ =
       s ++ (" / Avg " ++ printRate
         (⟨none, none, some ⟨0, 0, 10⟩, [⟨0, 0, 10⟩, ⟨60000, 60000, 9⟩],
            false, none, 0⟩ : BatteryMonitor).energyEmpty
         (⟨none, none, some ⟨0, 0, 10⟩, [⟨0, 0, 10⟩, ⟨60000, 60000, 9⟩],
            false, none, 0⟩ : BatteryMonitor).energyFull
         ((⟨60000, 60000, 9⟩ : Reading).energy -
           (⟨0, 0, 10⟩ : Reading).energy -
           (⟨none, none, some ⟨0, 0, 10⟩, [⟨0, 0, 10⟩, ⟨60000, 60000, 9⟩],
              false, none, 0⟩ : BatteryMonitor).totalSuspendEnergy)
         ((⟨60000, 60000, 9⟩ : Reading).relTime -
           (⟨0, 0, 10⟩ : Reading).relTime))) :=
  ⟨⟨rfl, rfl, rfl,
    updateEnergy_suspend_delta_and_avg_numerator.1
      (⟨none, none, some ⟨0, 0, 10⟩, [⟨0, 0, 10⟩], true, none, 0⟩ :
        BatteryMonitor) 9 60000 60000 ⟨0, 0, 10⟩ rfl rfl rfl⟩,
   ⟨rfl, rfl, by decide, rfl,
    updateEnergy_suspend_delta_and_avg_numerator.2
      (⟨none, none, some ⟨0, 0, 10⟩, [⟨0, 0, 10⟩, ⟨60000, 60000, 9⟩], false,
        none, 0⟩ : BatteryMonitor) 60000 "" ⟨4⟩ ⟨0, 0, 10⟩ ⟨60000, 60000, 9⟩
      rfl rfl (by decide) rfl⟩⟩

theorem setPowerState_readings_eq (m : BatteryMonitor) (ps : PowerState)
    (now relNow : ℤ) :
    (setPowerState m ps now relNow).1.readings = m.readings := by
  cases ps
  · rcases h : m.enterSuspendTime with _ | t <;> simp [setPowerState, h]
  · simp [setPowerState]
  · simp [setPowerState]

theorem stepCall_window_le (m : BatteryMonitor) (c : EntryCall)
    (h : m.readings.length ≤ 2) : (stepCall m c).readings.length ≤ 2 := by
  cases c with
  | power ps now relNow =>
    rw [stepCall, setPowerState_readings_eq]
    exact h
  | battery bs relNow =>
    cases bs <;> simp [stepCall, setBatteryState] <;> exact h
  | limits e f =>
    exact h
  | energy e now relNow =>
    by_cases hs : m.isSuspended = true
    · simp only [stepCall, updateEnergy, hs, ite_true]
      exact h
    · have hs2 : m.isSuspended = false := by
        cases hi : m.isSuspended
        · rfl
        · exact absurd hi hs
      rw [stepCall, updateEnergy_readings_eq m e now relNow hs2]
      exact trimWindow_length_le m.readings _ h

/-- Claim C4: the Sample Window never exceeds 2 entries under any sequence of
entry-point calls; insertion is append-then-trim-from-front; and any sequence
of `updateEnergy` calls made while not suspended leaves the window holding
exactly the up-to-two most recently admitted readings in arrival order,
oldest first. -/
theorem sample_window_bounded_and_recent :
    (∀ (m : BatteryMonitor) (cs : List EntryCall), m.readings.length ≤ 2 →
      (runCalls m cs).readings.length ≤ 2) ∧
    (∀ (m : BatteryMonitor) (e : ℚ) (now relNow : ℤ), m.isSuspended = false →
      (updateEnergy m e now relNow).1.readings =
        trimWindow (m.readings ++ [⟨now, relNow, e⟩])) ∧
    (∀ (m : BatteryMonitor) (us : List (ℚ × ℤ × ℤ)), m.isSuspended = false →
      m.readings.length ≤ 2 →
      (runUpdates m us).readings =
        (m.readings ++ us.map mkReading).drop
          ((m.readings.length + us.length) - 2)) := by
  refine ⟨?_, ?_, ?_⟩
  · intro m cs
    induction cs generalizing m with
    | nil =>
      intro h
      simpa [runCalls] using h
    | cons c cs ih =>
      intro h
      rw [runCalls, List.foldl_cons]
      exact ih (stepCall m c) (stepCall_window_le m c h)
  · intro m e now relNow hs
    exact updateEnergy_readings_eq m e now relNow hs
  · intro m us
    induction us generalizing m with
    | nil =>
      intro hs h
      simp [runUpdates, Nat.sub_eq_zero_of_le h]
    | cons u us ih =>
      intro hs h
      rw [runUpdates, List.foldl_cons]
      have hs2 : (updateEnergy m u.1 u.2.1 u.2.2).1.isSuspended = false := by
        unfold BatteryMonitor.isSuspended at hs ⊢
        rw [updateEnergy_enterSuspendTime]
        exact hs
      have hrd := updateEnergy_readings_eq m u.1 u.2.1 u.2.2 hs
      have hlen2 : (updateEnergy m u.1 u.2.1 u.2.2).1.readings.length ≤ 2 := by
        rw [hrd]
        exact trimWindow_length_le _ _ h
      have hih := ih (updateEnergy m u.1 u.2.1 u.2.2).1 hs2 hlen2
      rw [runUpdates] at hih
      rw [hih, hrd, trimWindow_eq_drop _ _ h]
      rw [← List.drop_append_of_le_length (by simp; omega)]
      rw [List.drop_drop, List.length_drop]
      simp only [List.map_cons, List.length_cons]
      congr 1
      · simp only [List.length_append, List.length_cons, List.length_nil]
        omega
      · simp [mkReading, List.append_assoc]

/-- Witness for `sample_window_bounded_and_recent` on concrete call
sequences starting from the initial state. -/
theorem sample_window_bounded_and_recent_witness :
    BatteryMonitor.init.readings.length ≤ 2 ∧
    BatteryMonitor.init.isSuspended = false ∧
    (runCalls BatteryMonitor.init
        [.energy 5 0 0, .energy 6 1 1, .energy 7 2 2]).readings.length ≤ 2 ∧
    (updateEnergy BatteryMonitor.init 5 0 0).1.readings =
      trimWindow (BatteryMonitor.init.readings ++ [⟨0, 0, 5⟩]) ∧
    (runUpdates BatteryMonitor.init [(5, 0, 0), (6, 1, 1), (7, 2, 2)]).readings =
      (BatteryMonitor.init.readings ++
          ([(5, 0, 0), (6, 1, 1), (7, 2, 2)] :
            List (ℚ × ℤ × ℤ)).map mkReading).drop
        ((BatteryMonitor.init.readings.length +
          ([(5, 0, 0), (6, 1, 1), (7, 2, 2)] : List (ℚ × ℤ × ℤ)).length) - 2) :=
  ⟨by decide, rfl,
   sample_window_bounded_and_recent.1 BatteryMonitor.init
     [.energy 5 0 0, .energy 6 1 1, .energy 7 2 2] (by decide),
   sample_window_bounded_and_recent.2.1 BatteryMonitor.init 5 0 0 rfl,
   sample_window_bounded_and_recent.2.2 BatteryMonitor.init
     [(5, 0, 0), (6, 1, 1), (7, 2, 2)] rfl (by decide)⟩
